import Mathlib

/-!
Shallow embedding of the Theia virtual-filesystem core (`files.ts`) and the
workspace duplicate command handler, with theorems checking the
natural-language specification against the code.

The embedding models TypeScript/JavaScript values explicitly:
machine numbers become `Nat`, optional values become `Option`,
JavaScript `Error` objects become a record carrying the fields the
code inspects (`name`, `message`) together with the structured data
attached by the two error subclasses (`instanceof` information).
-/

/-- Modelled from the spec: the Resource Identifier consumed from
collaborators (`@theia/core` URI, not part of the source set) — an opaque,
comparable, hierarchical locator (scheme + path) with equality and
containment queries.  The path is a list of segments. -/
structure Uri where
  scheme : String
  segments : List String
deriving DecidableEq, Repr

/-- Modelled from the spec: canonical string rendering of a URI, used by the
code only through equality comparison of rendered strings. -/
def Uri.render (u : Uri) : String :=
  u.scheme ++ "://" ++ u.segments.foldl (fun acc s => acc ++ "/" ++ s) ""

/-- Modelled from the spec: `resource.isEqualOrParent(other)` is true when
`other` is equal to `resource` or an ancestor of it, i.e. `resource` is equal
to or a descendant of `other`: same scheme and `other`'s segments are a
prefix of `resource`'s. -/
def Uri.isEqualOrParent (resource other : Uri) : Bool :=
  other.scheme == resource.scheme && other.segments.isPrefixOf resource.segments

/-- Modelled from the spec: the parent locator (drop the last path segment). -/
def Uri.parent (u : Uri) : Uri :=
  ⟨u.scheme, u.segments.dropLast⟩

/-- Embeds `FileOperation` from `files.ts`: kinds of completed high-level operations. -/
inductive FileOperation where
  | CREATE
  | DELETE
  | MOVE
  | COPY
deriving DecidableEq, Repr

/-- Embeds `FileChangeType` from `files.ts`: possible changes to a file. -/
inductive FileChangeType where
  | UPDATED
  | ADDED
  | DELETED
deriving DecidableEq, Repr

/-- Embeds `FileChange` from `files.ts`: a single change of a file. -/
structure FileChange where
  type : FileChangeType
  resource : Uri
deriving DecidableEq, Repr

/-- Embeds `FileChangesEvent` from `files.ts`: an immutable batch of changes. -/
structure FileChangesEvent where
  changes : List FileChange
deriving DecidableEq, Repr

/-- Embeds `FileChangesEvent.contains` from `files.ts`.  The `resource` argument is
`Option`al to model the JavaScript `if (!resource) return false` guard; the
optional `type` argument models the `type?` parameter, where
`checkForChangeType` is the `typeof type === 'number'` test. -/
def FileChangesEvent.contains (self : FileChangesEvent) (resource : Option Uri)
    (type : Option FileChangeType) : Bool :=
  match resource with
  | none => false
  | some resource =>
    let checkForChangeType := type.isSome
    self.changes.any fun change =>
      if checkForChangeType && !(type == some change.type) then
        false
      else if change.type == FileChangeType.DELETED then
        resource.isEqualOrParent change.resource
      else
        resource.render == change.resource.render

/-- Embeds `FileChangesEvent.getOfType` from `files.ts`. -/
def FileChangesEvent.getOfType (self : FileChangesEvent) (type : FileChangeType) :
    List FileChange :=
  self.changes.filter fun change => change.type == type

/-- Embeds `FileChangesEvent.hasType` from `files.ts`. -/
def FileChangesEvent.hasType (self : FileChangesEvent) (type : FileChangeType) : Bool :=
  self.changes.any fun change => change.type == type

/-- Embeds `FileChangesEvent.getAdded` from `files.ts`. -/
def FileChangesEvent.getAdded (self : FileChangesEvent) : List FileChange :=
  self.getOfType FileChangeType.ADDED

/-- Embeds `FileChangesEvent.gotAdded` from `files.ts`. -/
def FileChangesEvent.gotAdded (self : FileChangesEvent) : Bool :=
  self.hasType FileChangeType.ADDED

/-- Embeds `FileChangesEvent.getDeleted` from `files.ts`. -/
def FileChangesEvent.getDeleted (self : FileChangesEvent) : List FileChange :=
  self.getOfType FileChangeType.DELETED

/-- Embeds `FileChangesEvent.gotDeleted` from `files.ts`. -/
def FileChangesEvent.gotDeleted (self : FileChangesEvent) : Bool :=
  self.hasType FileChangeType.DELETED

/-- Embeds `FileChangesEvent.getUpdated` from `files.ts`. -/
def FileChangesEvent.getUpdated (self : FileChangesEvent) : List FileChange :=
  self.getOfType FileChangeType.UPDATED

/-- Embeds `FileChangesEvent.gotUpdated` from `files.ts`. -/
def FileChangesEvent.gotUpdated (self : FileChangesEvent) : Bool :=
  self.hasType FileChangeType.UPDATED

/-- Embeds `FileOperationResult` from `files.ts`: operation-level result codes. -/
inductive FileOperationResult where
  | FILE_IS_DIRECTORY
  | FILE_NOT_FOUND
  | FILE_NOT_MODIFIED_SINCE
  | FILE_MODIFIED_SINCE
  | FILE_MOVE_CONFLICT
  | FILE_READ_ONLY
  | FILE_PERMISSION_DENIED
  | FILE_TOO_LARGE
  | FILE_INVALID_PATH
  | FILE_EXCEEDS_MEMORY_LIMIT
  | FILE_NOT_DIRECTORY
  | FILE_OTHER_ERROR
deriving DecidableEq, Repr

/-- Embeds `FileSystemProviderErrorCode` from `files.ts`: provider-level error codes
(a TypeScript string enum). -/
inductive FileSystemProviderErrorCode where
  | FileExists
  | FileNotFound
  | FileNotADirectory
  | FileIsADirectory
  | NoPermissions
  | Unavailable
  | Unknown
deriving DecidableEq, Repr

/-- The string value of each `FileSystemProviderErrorCode` enum member, as
declared in `files.ts`. -/
def FileSystemProviderErrorCode.value : FileSystemProviderErrorCode → String
  | .FileExists => "EntryExists"
  | .FileNotFound => "EntryNotFound"
  | .FileNotADirectory => "EntryNotADirectory"
  | .FileIsADirectory => "EntryIsADirectory"
  | .NoPermissions => "NoPermissions"
  | .Unavailable => "Unavailable"
  | .Unknown => "Unknown"

/-- A JavaScript `Error` value as the code observes it: the plain `name` and
`message` fields, plus the structured data distinguishing the two subclasses —
`fileOperationResult` is `some _` exactly when the value is an
`instanceof FileOperationError`, and `providerCode` is `some _` exactly when
it is an `instanceof FileSystemProviderError` (whose `code` field it holds). -/
structure JSError where
  name : String
  message : String
  fileOperationResult : Option FileOperationResult := none
  providerCode : Option FileSystemProviderErrorCode := none
deriving DecidableEq, Repr

/-- Embeds `markAsFileSystemProviderError` from `files.ts`: rewrites `error.name`
using the template `` `${code} (FileSystemError)` `` when `code` is truthy
(a non-empty string) and the bare text otherwise. -/
def markAsFileSystemProviderError (error : JSError)
    (code : FileSystemProviderErrorCode) : JSError :=
  { error with
    name := if code.value ≠ "" then code.value ++ " (FileSystemError)"
            else "FileSystemError" }

/-- A character matched by an (unflagged) JavaScript regex `.`: anything but
the four line terminators. -/
def jsRegexDotMatches (c : Char) : Bool :=
  c ≠ '\n' && c ≠ '\r' && c ≠ '\u2028' && c ≠ '\u2029'

/-- The regex `/^(.+) \(FileSystemError\)$/` applied to a name, returning the
captured group when it matches: the name must end with the literal suffix
" (FileSystemError)", and everything before it must be non-empty and free of
line terminators (`.` does not match them); greediness makes the capture run
up to the final occurrence of the suffix, i.e. it is everything the suffix
leaves. -/
def fileSystemErrorNameMatch (name : String) : Option String :=
  let suffix := " (FileSystemError)"
  if suffix.data.isSuffixOf name.data then
    let captured := String.mk (name.data.take (name.data.length - suffix.data.length))
    if 0 < captured.data.length && captured.data.all jsRegexDotMatches then
      some captured
    else none
  else none

/-- Embeds `toFileSystemProviderErrorCode` from `files.ts`: recover a provider-level
code from an arbitrary error, structured first (`instanceof
FileSystemProviderError`), then by pattern recognition on `error.name`,
defaulting to `Unknown`. -/
def toFileSystemProviderErrorCode (error : Option JSError) :
    FileSystemProviderErrorCode :=
  match error with
  | none => .Unknown
  | some error =>
    match error.providerCode with
    | some code => code
    | none =>
      match fileSystemErrorNameMatch error.name with
      | none => .Unknown
      | some matched =>
        if matched = FileSystemProviderErrorCode.FileExists.value then .FileExists
        else if matched = FileSystemProviderErrorCode.FileIsADirectory.value then .FileIsADirectory
        else if matched = FileSystemProviderErrorCode.FileNotADirectory.value then .FileNotADirectory
        else if matched = FileSystemProviderErrorCode.FileNotFound.value then .FileNotFound
        else if matched = FileSystemProviderErrorCode.NoPermissions.value then .NoPermissions
        else if matched = FileSystemProviderErrorCode.Unavailable.value then .Unavailable
        else .Unknown

/-- Embeds `toFileOperationResult` from `files.ts`: an error that is an
`instanceof FileOperationError` already carries its result; otherwise the
result is derived from the extracted provider-level code by a fixed table. -/
def toFileOperationResult (error : JSError) : FileOperationResult :=
  match error.fileOperationResult with
  | some result => result
  | none =>
    match toFileSystemProviderErrorCode (some error) with
    | .FileNotFound => .FILE_NOT_FOUND
    | .FileIsADirectory => .FILE_IS_DIRECTORY
    | .FileNotADirectory => .FILE_NOT_DIRECTORY
    | .NoPermissions => .FILE_PERMISSION_DENIED
    | .FileExists => .FILE_MOVE_CONFLICT
    | _ => .FILE_OTHER_ERROR

/-- The digit character JavaScript `Number.prototype.toString(radix)` uses for
a digit value below 36: `0`-`9` then `a`-`z`. -/
def jsDigitChar (d : Nat) : Char :=
  if d < 10 then Char.ofNat (48 + d) else Char.ofNat (87 + d)

/-- Little-endian base-`b` digit values of `n`, computed with explicit fuel
(the fuel bounds the number of divisions; `natDigitsLE` supplies `n` itself,
which suffices for any base of at least 2). -/
def digitsLEAux (b : Nat) : Nat → Nat → List Nat
  | 0, _ => []
  | fuel + 1, n => if n = 0 then [] else n % b :: digitsLEAux b fuel (n / b)

/-- Little-endian base-`b` digit values of `n` (empty exactly for `n = 0`). -/
def natDigitsLE (b n : Nat) : List Nat :=
  digitsLEAux b n n

/-- Value of a little-endian digit list in base `b`. -/
def digitsLEVal (b : Nat) (ds : List Nat) : Nat :=
  ds.foldr (fun d acc => d + b * acc) 0

/-- Embeds `Number.prototype.toString(radix)` restricted to non-negative integers:
the standard positional representation of `n` in base `radix`, most
significant digit first, with digits drawn from `0`-`9a-z`; `0` renders as
"0". -/
def jsToString (n radix : Nat) : String :=
  if n = 0 then "0"
  else String.mk (((natDigitsLE radix n).map jsDigitChar).reverse)

/-- Embeds `ETAG_DISABLED` from `files.ts`: the sentinel disabling etag checking. -/
def ETAG_DISABLED : String := ""

/-- The argument record of `etag` from `files.ts`: possibly-undefined `mtime`
and `size` numbers. -/
structure EtagStat where
  mtime : Option Nat
  size : Option Nat
deriving DecidableEq, Repr

/-- Embeds `etag` from `files.ts`: `undefined` unless both `size` and `mtime` are
numbers, otherwise the concatenation of `mtime` rendered in base 29 and
`size` rendered in base 31. -/
def etag (stat : EtagStat) : Option String :=
  match stat.size, stat.mtime with
  | some size, some mtime => some (jsToString mtime 29 ++ jsToString size 31)
  | _, _ => none

/-- Embeds `FileSystemProviderCapabilities.FileReadWrite` from `files.ts`. -/
def FileSystemProviderCapabilities.FileReadWrite : Nat := 1 <<< 1

/-- Embeds `FileSystemProviderCapabilities.FileOpenReadWriteClose` from `files.ts`. -/
def FileSystemProviderCapabilities.FileOpenReadWriteClose : Nat := 1 <<< 2

/-- Embeds `FileSystemProviderCapabilities.FileFolderCopy` from `files.ts`. -/
def FileSystemProviderCapabilities.FileFolderCopy : Nat := 1 <<< 3

/-- Embeds `FileSystemProviderCapabilities.PathCaseSensitive` from `files.ts`. -/
def FileSystemProviderCapabilities.PathCaseSensitive : Nat := 1 <<< 10

/-- Embeds `FileSystemProviderCapabilities.Readonly` from `files.ts`. -/
def FileSystemProviderCapabilities.Readonly : Nat := 1 <<< 11

/-- Embeds `FileSystemProviderCapabilities.Trash` from `files.ts`. -/
def FileSystemProviderCapabilities.Trash : Nat := 1 <<< 12

/-- A `FileSystemProvider` as the capability-narrowing functions observe it:
its `capabilities` bitset, plus an opaque stand-in (`backend`) for everything
else about the provider (its operation implementations), which the narrowing
functions must not consult. -/
structure FileSystemProvider where
  capabilities : Nat
  backend : Nat
deriving DecidableEq, Repr

/-- Embeds `hasReadWriteCapability` from `files.ts`: `!!(provider.capabilities &
FileSystemProviderCapabilities.FileReadWrite)`. -/
def hasReadWriteCapability (provider : FileSystemProvider) : Bool :=
  (provider.capabilities &&& FileSystemProviderCapabilities.FileReadWrite) != 0

/-- Embeds `hasFileFolderCopyCapability` from `files.ts`. -/
def hasFileFolderCopyCapability (provider : FileSystemProvider) : Bool :=
  (provider.capabilities &&& FileSystemProviderCapabilities.FileFolderCopy) != 0

/-- Embeds `hasOpenReadWriteCloseCapability` from `files.ts`. -/
def hasOpenReadWriteCloseCapability (provider : FileSystemProvider) : Bool :=
  (provider.capabilities &&& FileSystemProviderCapabilities.FileOpenReadWriteClose) != 0

/-- Embeds `FileStatWithMetadata` from `files.ts`: a stat whose `mtime`, `ctime`,
`etag` and `size` are guaranteed present, with optional children. -/
inductive FileStatWithMetadata where
  | mk (resource : Uri) (name : String) (isFile isDirectory isSymbolicLink : Bool)
      (mtime ctime size : Nat) (etag : String)
      (children : Option (List FileStatWithMetadata))

/-- Embeds `FileStat` from `files.ts`: a resolved resource with type flags and
optional children (metadata fields not required). -/
inductive FileStat where
  | mk (resource : Uri) (name : String) (isFile isDirectory isSymbolicLink : Bool)
      (children : Option (List FileStat))

/-- The `resource` field of a `FileStat`. -/
def FileStat.resource : FileStat → Uri
  | .mk r _ _ _ _ _ => r

/-- Embeds `FileOperationEvent` from `files.ts`: the underlying record with its three
readonly fields. -/
structure FileOperationEvent where
  resource : Uri
  operation : FileOperation
  target : Option FileStatWithMetadata

/-- The first `FileOperationEvent` constructor overload from `files.ts`:
`constructor(resource, FileOperation.DELETE)` — no target. -/
def FileOperationEvent.mkDelete (resource : Uri) : FileOperationEvent :=
  ⟨resource, FileOperation.DELETE, none⟩

/-- The second `FileOperationEvent` constructor overload from `files.ts`:
`constructor(resource, CREATE | MOVE | COPY, target)` — a target is required
and the operation cannot be `DELETE`. -/
def FileOperationEvent.mkWithTarget (resource : Uri) (operation : FileOperation)
    (hop : operation ≠ FileOperation.DELETE) (target : FileStatWithMetadata) :
    FileOperationEvent :=
  ⟨resource, operation, some target⟩

/-- Embeds `FileOperationEvent.isOperation` from `files.ts`. -/
def FileOperationEvent.isOperation (self : FileOperationEvent)
    (operation : FileOperation) : Bool :=
  self.operation == operation

/-- The events constructible through the public constructor overloads of
`FileOperationEvent` (the only way the class can be instantiated). -/
inductive FileOperationEvent.Constructed : FileOperationEvent → Prop
  | delete (resource : Uri) :
      FileOperationEvent.Constructed (FileOperationEvent.mkDelete resource)
  | withTarget (resource : Uri) (operation : FileOperation)
      (hop : operation ≠ FileOperation.DELETE) (target : FileStatWithMetadata) :
      FileOperationEvent.Constructed
        (FileOperationEvent.mkWithTarget resource operation hop target)

/-- Modelled from the spec: the external collaborators called by
`WorkspaceDuplicateHandler.execute` (file resolution, path name/extension,
unique-target generation from `FileSystemUtils`, and the working-copy `copy`
operation), which are not part of the source set.  Per the concurrency model
every operation is asynchronous: issuing it returns a future-like handle and
a failure is delivered through that handle, never as a synchronous exception
at the call site.  `copyOutcome uri target = none` means the copy promise
eventually resolves; `some e` means it eventually rejects with `e`. -/
structure DuplicateHandlerEnv where
  resolve : Uri → Option FileStat
  pathName : Uri → String
  pathExt : Uri → String
  generateUniqueResourceURI : Uri → FileStat → String → String → Uri
  copyOutcome : Uri → Uri → Option JSError

/-- The observable outcome of one `execute` call: the copies that completed,
the errors logged by the per-resource `catch` block, and the promise
rejections nothing awaited or caught (unhandled rejections). -/
structure DuplicateExecOutcome where
  completed : List (Uri × Uri)
  logged : List JSError
  unhandledRejections : List JSError
deriving DecidableEq, Repr

/-- Embeds `WorkspaceDuplicateHandler.execute` from
`workspace-duplicate-handler.ts`.  For each URI it resolves the parent,
derives the `_copy` target name and starts the copy.  The
`this.workingCopyFileService.copy(uri, target)` call inside the `try` block
is not awaited: it starts the asynchronous copy and discards the returned
promise, so a rejection of that promise is not a synchronous exception, the
`catch (e) { console.error(e) }` block never runs for it, and the rejection
surfaces as an unhandled promise rejection; the promise returned by
`execute` itself always resolves.  `Promise.all` is modelled by folding the
per-URI outcomes in order. -/
def WorkspaceDuplicateHandler.execute (env : DuplicateHandlerEnv)
    (uris : List Uri) : DuplicateExecOutcome :=
  uris.foldl
    (fun acc uri =>
      match env.resolve uri.parent with
      | none => acc
      | some parent =>
        let parentUri := FileStat.resource parent
        let name := env.pathName uri ++ "_copy"
        let ext := env.pathExt uri
        let target := env.generateUniqueResourceURI parentUri parent name ext
        match env.copyOutcome uri target with
        | none => { acc with completed := acc.completed ++ [(uri, target)] }
        | some e =>
          { acc with unhandledRejections := acc.unhandledRejections ++ [e] })
    ⟨[], [], []⟩

/-- The numeric value named by a digit character of `jsDigitChar` (inverse
reading used only in proofs). -/
def jsDigitVal (c : Char) : Nat :=
  if 97 ≤ c.toNat then c.toNat - 87 else c.toNat - 48

/-- Parse a base-`radix` rendering back to a number (left inverse of
`jsToString`, used only in proofs). -/
def readRadix (radix : Nat) (s : String) : Nat :=
  digitsLEVal radix ((s.data.map jsDigitVal).reverse)

/-- Concrete scenario for the duplicate handler: the first of two sibling
files, `file:///ws/a.txt`. -/
def c2UriA : Uri := ⟨"file", ["ws", "a.txt"]⟩

/-- Concrete scenario for the duplicate handler: the second sibling,
`file:///ws/b.txt`. -/
def c2UriB : Uri := ⟨"file", ["ws", "b.txt"]⟩

/-- Concrete scenario for the duplicate handler: the resolved parent
directory `file:///ws`. -/
def c2Parent : FileStat :=
  FileStat.mk ⟨"file", ["ws"]⟩ "ws" false true false none

/-- Concrete scenario for the duplicate handler: the PermissionDenied failure
with which the copy of `a.txt` rejects. -/
def c2PermError : JSError :=
  { name := "NoPermissions (FileSystemError)", message := "EACCES",
    providerCode := some FileSystemProviderErrorCode.NoPermissions }

/-- Concrete scenario for the duplicate handler: an environment in which both
parents resolve, the copy of `a.txt` rejects with PermissionDenied and the
copy of `b.txt` resolves. -/
def c2Env : DuplicateHandlerEnv where
  resolve := fun u => if u = Uri.mk "file" ["ws"] then some c2Parent else none
  pathName := fun u => if u = c2UriA then "a" else "b"
  pathExt := fun _ => ".txt"
  generateUniqueResourceURI := fun parentUri _ name ext =>
    ⟨parentUri.scheme, parentUri.segments ++ [name ++ ext]⟩
  copyOutcome := fun u _ => if u = c2UriA then some c2PermError else none

/-- Modelled from the spec: a generic error channel (thread, process, RPC
boundary) that preserves only the plain `Error` fields — `name` and
`message` — and strips the structured subclass information. -/
def stripToPlainError (e : JSError) : JSError :=
  { name := e.name, message := e.message }

theorem jsDigitVal_jsDigitChar : ∀ d < 36, jsDigitVal (jsDigitChar d) = d := by
  decide

theorem digitsLEAux_lt (b : Nat) (hb : 0 < b) :
    ∀ fuel n d, d ∈ digitsLEAux b fuel n → d < b := by
  intro fuel
  induction fuel with
  | zero => intro n d hd; simp [digitsLEAux] at hd
  | succ fuel ih =>
    intro n d hd
    by_cases h : n = 0
    · simp [digitsLEAux, h] at hd
    · simp only [digitsLEAux, if_neg h, List.mem_cons] at hd
      rcases hd with h1 | h2
      · subst h1; exact Nat.mod_lt _ hb
      · exact ih _ _ h2

theorem digitsLEAux_val (b : Nat) (hb : 2 ≤ b) :
    ∀ fuel n, n ≤ fuel → digitsLEVal b (digitsLEAux b fuel n) = n := by
  intro fuel
  induction fuel with
  | zero =>
    intro n hn
    have h0 : n = 0 := Nat.le_zero.mp hn
    subst h0
    rfl
  | succ fuel ih =>
    intro n hn
    by_cases h : n = 0
    · subst h; rfl
    · simp only [digitsLEAux, if_neg h]
      have hdiv : n / b ≤ fuel := by
        have h1 : n / b < n := Nat.div_lt_self (Nat.pos_of_ne_zero h) (by omega)
        omega
      have hrec := ih (n / b) hdiv
      simp only [digitsLEVal, List.foldr_cons] at hrec ⊢
      rw [hrec]
      exact Nat.mod_add_div n b

theorem natDigitsLE_val (b n : Nat) (hb : 2 ≤ b) :
    digitsLEVal b (natDigitsLE b n) = n :=
  digitsLEAux_val b hb n n (Nat.le_refl n)

theorem natDigitsLE_lt (b n : Nat) (hb : 0 < b) :
    ∀ d ∈ natDigitsLE b n, d < b :=
  fun d hd => digitsLEAux_lt b hb n n d hd

theorem readRadix_jsToString (b n : Nat) (hb2 : 2 ≤ b) (hb36 : b ≤ 36) :
    readRadix b (jsToString n b) = n := by
  by_cases h : n = 0
  · subst h; rfl
  · unfold jsToString readRadix
    simp only [if_neg h]
    show digitsLEVal b
      ((((natDigitsLE b n).map jsDigitChar).reverse.map jsDigitVal).reverse) = n
    rw [List.map_reverse, List.reverse_reverse, List.map_map]
    have hmap : (natDigitsLE b n).map (jsDigitVal ∘ jsDigitChar) = natDigitsLE b n := by
      conv_rhs => rw [← List.map_id (natDigitsLE b n)]
      apply List.map_congr_left
      intro d hd
      exact jsDigitVal_jsDigitChar d
        (lt_of_lt_of_le (natDigitsLE_lt b n (by omega) d hd) hb36)
    rw [hmap]
    exact natDigitsLE_val b n hb2

theorem jsToString_inj (b n1 n2 : Nat) (hb2 : 2 ≤ b) (hb36 : b ≤ 36)
    (h : jsToString n1 b = jsToString n2 b) : n1 = n2 := by
  have h1 := readRadix_jsToString b n1 hb2 hb36
  have h2 := readRadix_jsToString b n2 hb2 hb36
  rw [h] at h1
  exact h1.symm.trans h2

theorem jsToString_data_ne_nil (n b : Nat) : (jsToString n b).data ≠ [] := by
  by_cases h : n = 0
  · subst h; simp [jsToString]
  · unfold jsToString
    simp only [if_neg h]
    obtain ⟨k, rfl⟩ : ∃ k, n = k + 1 := ⟨n - 1, by omega⟩
    simp [natDigitsLE, digitsLEAux]

theorem string_eq_of_data_eq (s t : String) (h : s.data = t.data) : s = t := by
  cases s; cases t; exact congrArg String.mk h

/-- C4 counterexample: the fingerprint function is not injective on pairs of
defined (mtime, size) numbers — the distinct pairs (mtime 1, size 31) and
(mtime 30, size 0) both produce the fingerprint "110", because the base-29
rendering of the mtime and the base-31 rendering of the size concatenate
without a separator. -/
theorem etag_pair_collision :
    etag ⟨some 1, some 31⟩ = etag ⟨some 30, some 0⟩ ∧
    ((1 : Nat), (31 : Nat)) ≠ ((30 : Nat), (0 : Nat)) := by
  refine ⟨?_, by decide⟩
  decide

/-- C4 (amended): for (mtime, size) pairs where both are defined numbers, the
fingerprint function `etag` is deterministic (identical inputs yield an
identical string), and changing only the mtime, or only the size, always
changes the output; full injectivity on pairs fails (see the collision
counterexample), because varying both components at once can collide. -/
theorem etag_deterministic_and_componentwise_injective :
    (∀ stat : EtagStat, etag stat = etag stat) ∧
    (∀ mtime size1 size2 : Nat,
      etag ⟨some mtime, some size1⟩ = etag ⟨some mtime, some size2⟩ →
        size1 = size2) ∧
    (∀ mtime1 mtime2 size : Nat,
      etag ⟨some mtime1, some size⟩ = etag ⟨some mtime2, some size⟩ →
        mtime1 = mtime2) := by
  refine ⟨fun _ => rfl, ?_, ?_⟩
  · intro m s1 s2 h
    have h' : jsToString m 29 ++ jsToString s1 31
        = jsToString m 29 ++ jsToString s2 31 := Option.some.inj h
    have hd := congrArg String.data h'
    rw [String.data_append, String.data_append] at hd
    have hcancel := List.append_cancel_left hd
    exact jsToString_inj 31 s1 s2 (by omega) (by omega)
      (string_eq_of_data_eq _ _ hcancel)
  · intro m1 m2 s h
    have h' : jsToString m1 29 ++ jsToString s 31
        = jsToString m2 29 ++ jsToString s 31 := Option.some.inj h
    have hd := congrArg String.data h'
    rw [String.data_append, String.data_append] at hd
    have hcancel := List.append_cancel_right hd
    exact jsToString_inj 29 m1 m2 (by omega) (by omega)
      (string_eq_of_data_eq _ _ hcancel)

/-- Witness for the amended C4 theorem at concrete inputs: determinism at
(mtime 5, size 3) and size-injectivity applied at mtime 5, sizes 3 and 3. -/
theorem etag_deterministic_and_componentwise_injective_witness :
    etag ⟨some 5, some 3⟩ = etag ⟨some 5, some 3⟩ ∧ (3 : Nat) = 3 :=
  ⟨etag_deterministic_and_componentwise_injective.1 ⟨some 5, some 3⟩,
   etag_deterministic_and_componentwise_injective.2.1 5 3 3 rfl⟩

/-- C8: when either stat component is not a defined number, `etag` yields the
absent marker (`none`) — never the disabled-checking sentinel and never a
failure — and for defined inputs the result is never the sentinel
`ETAG_DISABLED` (the empty string), so sentinel comparisons cannot collide
with a live fingerprint. -/
theorem etag_absent_marker_and_never_sentinel :
    (∀ stat : EtagStat, stat.mtime = none ∨ stat.size = none →
      etag stat = none) ∧
    (∀ mtime size : Nat, etag ⟨some mtime, some size⟩ ≠ some ETAG_DISABLED) := by
  constructor
  · rintro ⟨m, s⟩ (h | h)
    · simp only at h
      subst h
      cases s <;> rfl
    · simp only at h
      subst h
      rfl
  · intro m s h
    have h' : jsToString m 29 ++ jsToString s 31 = ETAG_DISABLED :=
      Option.some.inj h
    have hd := congrArg String.data h'
    rw [String.data_append] at hd
    have hnil : (jsToString m 29).data = [] := (List.append_eq_nil.mp hd).1
    exact jsToString_data_ne_nil m 29 hnil

/-- Witness for the C8 theorem at concrete inputs: an absent mtime yields
`none`, and the fingerprint of (mtime 2, size 4) is not the sentinel. -/
theorem etag_absent_marker_and_never_sentinel_witness :
    etag ⟨none, some 7⟩ = none ∧ etag ⟨some 2, some 4⟩ ≠ some ETAG_DISABLED :=
  ⟨etag_absent_marker_and_never_sentinel.1 ⟨none, some 7⟩ (Or.inl rfl),
   etag_absent_marker_and_never_sentinel.2 2 4⟩

set_option maxRecDepth 8192

/-- C7: marking an arbitrary error with the provider-level code NotFound via
`markAsFileSystemProviderError`, passing it through a generic error channel
that preserves only the plain `Error` fields (stripping the structured
`FileSystemProviderError` type), then extracting the code with
`toFileSystemProviderErrorCode`, yields NotFound. -/
theorem mark_strip_extract_roundtrip_notFound (e : JSError) :
    toFileSystemProviderErrorCode
      (some (stripToPlainError
        (markAsFileSystemProviderError e FileSystemProviderErrorCode.FileNotFound)))
      = FileSystemProviderErrorCode.FileNotFound := by
  rfl

/-- C1: `toFileOperationResult` is total (never an exception) and produces
exactly one operation-level result: an error that is a `FileOperationError`
returns its carried `fileOperationResult` unchanged; any other error has its
result derived from the extracted provider-level code by the fixed table
NotFound→FILE_NOT_FOUND, IsADirectory→FILE_IS_DIRECTORY,
NotADirectory→FILE_NOT_DIRECTORY, NoPermission→FILE_PERMISSION_DENIED,
AlreadyExists→FILE_MOVE_CONFLICT, and every other code (Unavailable,
Unknown) yields FILE_OTHER_ERROR. -/
theorem toFileOperationResult_classification :
    (∀ (e : JSError) (r : FileOperationResult),
      e.fileOperationResult = some r → toFileOperationResult e = r) ∧
    (∀ e : JSError, e.fileOperationResult = none →
      toFileOperationResult e =
        match toFileSystemProviderErrorCode (some e) with
        | .FileNotFound => .FILE_NOT_FOUND
        | .FileIsADirectory => .FILE_IS_DIRECTORY
        | .FileNotADirectory => .FILE_NOT_DIRECTORY
        | .NoPermissions => .FILE_PERMISSION_DENIED
        | .FileExists => .FILE_MOVE_CONFLICT
        | .Unavailable => .FILE_OTHER_ERROR
        | .Unknown => .FILE_OTHER_ERROR) := by
  constructor
  · intro e r h
    unfold toFileOperationResult
    rw [h]
  · intro e h
    unfold toFileOperationResult
    rw [h]
    cases hc : toFileSystemProviderErrorCode (some e) <;> rfl

/-- Witness for C1 at concrete inputs: a `FileOperationError` carrying
FILE_TOO_LARGE keeps it, and a plain error marked EntryIsADirectory maps to
FILE_IS_DIRECTORY through the table. -/
theorem toFileOperationResult_classification_witness :
    toFileOperationResult
      { name := "Error", message := "m",
        fileOperationResult := some FileOperationResult.FILE_TOO_LARGE } =
      FileOperationResult.FILE_TOO_LARGE ∧
    toFileOperationResult
      { name := "EntryIsADirectory (FileSystemError)", message := "m" } =
      FileOperationResult.FILE_IS_DIRECTORY :=
  ⟨toFileOperationResult_classification.1 _ _ rfl,
   (toFileOperationResult_classification.2
      { name := "EntryIsADirectory (FileSystemError)", message := "m" }
      rfl).trans (by decide)⟩

/-- C6: `toFileSystemProviderErrorCode` is total (never throws or fails): it
returns Unknown for `undefined`/`null` and for every error carrying no
provider-level marking, structured or textual; when a marking is present the
code is recovered structured-first (a `FileSystemProviderError` keeps its
`code` field), falling back to pattern recognition on the error's name
text. -/
theorem toFileSystemProviderErrorCode_extraction :
    (toFileSystemProviderErrorCode none = FileSystemProviderErrorCode.Unknown) ∧
    (∀ (e : JSError) (c : FileSystemProviderErrorCode),
      e.providerCode = some c → toFileSystemProviderErrorCode (some e) = c) ∧
    (∀ e : JSError, e.providerCode = none →
      fileSystemErrorNameMatch e.name = none →
      toFileSystemProviderErrorCode (some e) = FileSystemProviderErrorCode.Unknown) ∧
    (∀ (e : JSError) (c : FileSystemProviderErrorCode),
      e.providerCode = none →
      fileSystemErrorNameMatch e.name = some c.value →
      toFileSystemProviderErrorCode (some e) = c) := by
  refine ⟨rfl, ?_, ?_, ?_⟩
  · intro e c h
    simp only [toFileSystemProviderErrorCode]
    rw [h]
  · intro e hpc hmatch
    simp only [toFileSystemProviderErrorCode]
    rw [hpc, hmatch]
  · intro e c hpc hmatch
    simp only [toFileSystemProviderErrorCode]
    rw [hpc, hmatch]
    cases c <;> rfl

/-- Witness for C6 at concrete inputs: a structured Unavailable code is
recovered even though the name says otherwise, an unmarked error yields
Unknown, and a textual NoPermissions marking is recognized. -/
theorem toFileSystemProviderErrorCode_extraction_witness :
    toFileSystemProviderErrorCode
      (some { name := "EntryNotFound (FileSystemError)", message := "m",
              providerCode := some FileSystemProviderErrorCode.Unavailable }) =
      FileSystemProviderErrorCode.Unavailable ∧
    toFileSystemProviderErrorCode
      (some { name := "TypeError", message := "m" }) =
      FileSystemProviderErrorCode.Unknown ∧
    toFileSystemProviderErrorCode
      (some { name := "NoPermissions (FileSystemError)", message := "m" }) =
      FileSystemProviderErrorCode.NoPermissions :=
  ⟨toFileSystemProviderErrorCode_extraction.2.1 _ _ rfl,
   toFileSystemProviderErrorCode_extraction.2.2.1 _ rfl (by decide),
   toFileSystemProviderErrorCode_extraction.2.2.2 _
     FileSystemProviderErrorCode.NoPermissions rfl (by decide)⟩

/-- C2 (code bug): running the duplicate handler on two siblings where the
copy of the first rejects with PermissionDenied completes the other sibling's
copy and rejects nothing to the caller of `execute`, but the failure is not
logged: because the `copy` call inside the `try` block is not awaited, the
rejection bypasses the per-resource `catch`/`console.error` and surfaces as
an unhandled promise rejection — the logged list is empty even though a
failure occurred. -/
theorem duplicateHandler_unawaited_copy_skips_logging :
    WorkspaceDuplicateHandler.execute c2Env [c2UriA, c2UriB] =
      { completed := [(c2UriB, ⟨"file", ["ws", "b_copy.txt"]⟩)],
        logged := [],
        unhandledRejections := [c2PermError] } := by
  decide

/-- C9: every `FileOperationEvent` constructed through the class's public
constructor overloads satisfies, from construction on (all fields are
readonly), that target metadata is present when the operation is CREATE,
MOVE or COPY and absent when it is DELETE. -/
theorem fileOperationEvent_target_invariant (ev : FileOperationEvent)
    (h : FileOperationEvent.Constructed ev) :
    (ev.operation = FileOperation.DELETE → ev.target = none) ∧
    (ev.operation ≠ FileOperation.DELETE → ∃ t, ev.target = some t) := by
  cases h with
  | delete resource =>
    exact ⟨fun _ => rfl, fun hne => absurd rfl hne⟩
  | withTarget resource operation hop target =>
    exact ⟨fun hd => absurd hd hop, fun _ => ⟨target, rfl⟩⟩

/-- Witness for C9 at a concrete event: a DELETE event built by the first
overload has no target. -/
theorem fileOperationEvent_target_invariant_witness :
    (FileOperationEvent.mkDelete ⟨"file", ["x"]⟩).target = none :=
  (fileOperationEvent_target_invariant _
    (FileOperationEvent.Constructed.delete ⟨"file", ["x"]⟩)).1 rfl

theorem and_two_pow_bne_zero (n i : Nat) : ((n &&& 2 ^ i) != 0) = n.testBit i := by
  rw [Nat.and_two_pow]
  cases h : n.testBit i
  · simp
  · simp only [Bool.toNat_true, one_mul, bne_iff_ne, ne_eq]
    simp [(Nat.two_pow_pos i).ne']

theorem hasReadWriteCapability_eq_testBit (p : FileSystemProvider) :
    hasReadWriteCapability p = p.capabilities.testBit 1 := by
  have h2 : FileSystemProviderCapabilities.FileReadWrite = 2 ^ 1 := by
    simp [FileSystemProviderCapabilities.FileReadWrite, Nat.shiftLeft_eq]
  rw [hasReadWriteCapability, h2]
  exact and_two_pow_bne_zero p.capabilities 1

theorem hasOpenReadWriteCloseCapability_eq_testBit (p : FileSystemProvider) :
    hasOpenReadWriteCloseCapability p = p.capabilities.testBit 2 := by
  have h2 : FileSystemProviderCapabilities.FileOpenReadWriteClose = 2 ^ 2 := by
    simp [FileSystemProviderCapabilities.FileOpenReadWriteClose, Nat.shiftLeft_eq]
  rw [hasOpenReadWriteCloseCapability, h2]
  exact and_two_pow_bne_zero p.capabilities 2

theorem hasFileFolderCopyCapability_eq_testBit (p : FileSystemProvider) :
    hasFileFolderCopyCapability p = p.capabilities.testBit 3 := by
  have h2 : FileSystemProviderCapabilities.FileFolderCopy = 2 ^ 3 := by
    simp [FileSystemProviderCapabilities.FileFolderCopy, Nat.shiftLeft_eq]
  rw [hasFileFolderCopyCapability, h2]
  exact and_two_pow_bne_zero p.capabilities 3

/-- C5: each of the three capability-narrowing predicates succeeds (the type
guard holds, yielding the refined reference) exactly when the corresponding
capability bit is set in the provider's `capabilities` bitset, and refuses
exactly when the bit is unset; the test is a pure bitwise check — it depends
only on the bitset and never consults the rest of the provider (the
backend). -/
theorem capability_narrowing_iff_bit :
    (∀ p : FileSystemProvider,
      (hasReadWriteCapability p = true ↔ p.capabilities.testBit 1 = true) ∧
      (hasOpenReadWriteCloseCapability p = true ↔
        p.capabilities.testBit 2 = true) ∧
      (hasFileFolderCopyCapability p = true ↔
        p.capabilities.testBit 3 = true)) ∧
    (∀ p q : FileSystemProvider, p.capabilities = q.capabilities →
      hasReadWriteCapability p = hasReadWriteCapability q ∧
      hasOpenReadWriteCloseCapability p = hasOpenReadWriteCloseCapability q ∧
      hasFileFolderCopyCapability p = hasFileFolderCopyCapability q) := by
  constructor
  · intro p
    rw [hasReadWriteCapability_eq_testBit, hasOpenReadWriteCloseCapability_eq_testBit,
      hasFileFolderCopyCapability_eq_testBit]
    exact ⟨Iff.rfl, Iff.rfl, Iff.rfl⟩
  · intro p q hcap
    refine ⟨?_, ?_, ?_⟩ <;>
      simp [hasReadWriteCapability, hasOpenReadWriteCloseCapability,
        hasFileFolderCopyCapability, hcap]

/-- Witness for C5 at concrete providers: a provider with only the
FileFolderCopy bit (8) passes that narrowing check, and two providers with
equal bitsets but different backends agree on the read/write check. -/
theorem capability_narrowing_iff_bit_witness :
    (hasFileFolderCopyCapability ⟨8, 0⟩ = true ↔ (8 : Nat).testBit 3 = true) ∧
    hasReadWriteCapability ⟨2, 0⟩ = hasReadWriteCapability ⟨2, 99⟩ :=
  ⟨(capability_narrowing_iff_bit.1 ⟨8, 0⟩).2.2,
   (capability_narrowing_iff_bit.2 ⟨2, 0⟩ ⟨2, 99⟩ rfl).1⟩

/-- C3: `contains` is true exactly when the batch holds a record that matches
the given kind (when one is given) and whose resource matches — by rendered
string equality for non-Deleted records, while a Deleted record also matches
when the queried resource is equal to or a descendant of the deleted
record's resource; in particular a batch containing a Deleted record for
/a/b contains /a/b/c as Deleted and does not contain it as Updated. -/
theorem fileChangesEvent_contains_characterization :
    (∀ (ev : FileChangesEvent) (r : Uri) (t : Option FileChangeType),
      ev.contains (some r) t = true ↔
        ∃ change ∈ ev.changes,
          (∀ k, t = some k → change.type = k) ∧
          ((change.type = FileChangeType.DELETED ∧
              r.isEqualOrParent change.resource = true) ∨
            (change.type ≠ FileChangeType.DELETED ∧
              r.render = change.resource.render))) ∧
    ((FileChangesEvent.mk
        [⟨FileChangeType.DELETED, ⟨"file", ["a", "b"]⟩⟩]).contains
        (some ⟨"file", ["a", "b", "c"]⟩) (some FileChangeType.DELETED) = true ∧
      (FileChangesEvent.mk
        [⟨FileChangeType.DELETED, ⟨"file", ["a", "b"]⟩⟩]).contains
        (some ⟨"file", ["a", "b", "c"]⟩) (some FileChangeType.UPDATED) = false) := by
  refine ⟨?_, by decide, by decide⟩
  intro ev r t
  simp only [FileChangesEvent.contains, List.any_eq_true]
  apply exists_congr
  intro c
  apply and_congr_right
  intro hc
  cases t with
  | none =>
    by_cases hd : c.type = FileChangeType.DELETED
    · simp [hd]
    · simp [hd]
  | some k =>
    by_cases hk : c.type = k
    · subst hk
      by_cases hd : c.type = FileChangeType.DELETED
      · simp [hd]
      · simp [hd]
    · simp [hk, Ne.symm hk]

/-- C10: for each change kind, the existence check (`gotAdded`/`gotDeleted`/
`gotUpdated`) is true exactly when the corresponding filter (`getAdded`/
`getDeleted`/`getUpdated`) returns a non-empty list; both are pure functions
of the batch's immutable record list, so neither call mutates the batch. -/
theorem gotType_iff_getType_nonempty (ev : FileChangesEvent) :
    (ev.gotAdded = true ↔ ev.getAdded ≠ []) ∧
    (ev.gotDeleted = true ↔ ev.getDeleted ≠ []) ∧
    (ev.gotUpdated = true ↔ ev.getUpdated ≠ []) := by
  refine ⟨?_, ?_, ?_⟩ <;>
    simp [FileChangesEvent.gotAdded, FileChangesEvent.gotDeleted,
      FileChangesEvent.gotUpdated, FileChangesEvent.hasType,
      FileChangesEvent.getAdded, FileChangesEvent.getDeleted,
      FileChangesEvent.getUpdated, FileChangesEvent.getOfType,
      List.any_eq_true, ne_eq, List.filter_eq_nil_iff]
